import Mathlib

/-!
Shallow embedding of the `ocean.py` sources under verification:
`ocean_lib/ocean/util.py` (unit-conversion, network-selection and
contract-address helpers) and `ocean_lib/models/v4/bpool.py` (the `BPool`
remote-contract wrapper).  Python unbounded `int` is modelled by `Int`,
Python `float` amounts by `Rat` (exact idealisation of the numeric values),
Python `str` by `String`.  Fallible Python code (assertions, attribute
errors on `None`) is modelled with `Except`.
-/

namespace OceanPy

/-! ## util.py: module-level constants -/

/-- Infura project id constant from util.py. -/
def WEB3_INFURA_PROJECT_ID : String := "357f2fe737db4304bd2f7285c5602d0d"

/-- Local ganache node url constant from util.py. -/
def GANACHE_URL : String := "http://127.0.0.1:8545"

/-- Supported network names set from util.py (a Python set, modelled as a
list with membership via `contains`). -/
def SUPPORTED_NETWORK_NAMES : List String :=
  ["rinkeby", "kovan", "ganache", "mainnet", "ropsten"]

/-! ## util.py: unit-conversion helpers -/

/-- Truncation toward zero, the behaviour of the Python builtin `int()` on
a numeric value: floor for non-negative arguments, ceiling for negative. -/
def pyIntTrunc (q : ℚ) : ℤ :=
  if 0 ≤ q then ⌊q⌋ else ⌈q⌉

/-- util.py `to_base`: returns value in e.g. wei taking e.g. ETH as input;
`int(amt * 1*10**dec)`. -/
def to_base (amt : ℚ) (dec : ℕ) : ℤ :=
  pyIntTrunc (amt * (1 * 10 ^ dec))

/-- util.py `to_base_18`: `to_base(amt, 18)`. -/
def to_base_18 (amt : ℚ) : ℤ :=
  to_base amt 18

/-- util.py `from_base`: returns value in e.g. ETH taking e.g. wei as
input; `float(num_base / (10**dec))`. -/
def from_base (num_base : ℤ) (dec : ℕ) : ℚ :=
  (num_base : ℚ) / (10 ^ dec : ℚ)

/-- util.py `from_base_18`: `from_base(num_base, 18)`. -/
def from_base_18 (num_base : ℤ) : ℚ :=
  from_base num_base 18

/-! ## util.py: network-selection helpers -/

/-- util.py `get_infura_url`: the websocket infura url for a network. -/
def get_infura_url (infura_id network : String) : String :=
  "wss://" ++ network ++ ".infura.io/ws/v3/" ++ infura_id

/-- Python `str.startswith`, modelled on the character list of the string. -/
def startswith (s pre : String) : Bool :=
  pre.data.isPrefixOf s.data

/-- web3 providers that `get_web3_connection_provider` can return:
`CustomHTTPProvider(url)` or `WebsocketProvider(url)`.  The provider
classes themselves live outside this repository; only which one is chosen,
and with which url, is this code's behaviour. -/
inductive Provider where
  | customHTTP (url : String)
  | websocket (url : String)
deriving DecidableEq, Repr

/-- Locally raised Python errors appearing in util.py: the `assert` in
`get_web3_connection_provider` (payload: the offending network url) and the
`AttributeError` from calling `.get` on `None` in the address getters. -/
inductive UtilError where
  | assertionError (networkUrl : String)
  | attributeError
deriving DecidableEq, Repr

/-- util.py `get_web3_connection_provider`: substitutes `GANACHE_URL` for
the literal input `ganache`, then dispatches on the (substituted) url:
http-prefixed to `CustomHTTPProvider`, ws-prefixed to `WebsocketProvider`,
a supported network name to a `WebsocketProvider` on the infura url, and
anything else fails the `assert`. -/
def get_web3_connection_provider (network_url : String) : Except UtilError Provider :=
  let url := if network_url == "ganache" then GANACHE_URL else network_url
  if startswith url "http" then
    Except.ok (Provider.customHTTP url)
  else if startswith url "ws" then
    Except.ok (Provider.websocket url)
  else if SUPPORTED_NETWORK_NAMES.contains url then
    Except.ok (Provider.websocket (get_infura_url WEB3_INFURA_PROJECT_ID url))
  else
    Except.error (UtilError.assertionError url)

/-! ## util.py: contract-address helpers -/

/-- The part of the configuration object read by `get_contracts_addresses`:
`config.address_file`.  `none` models Python `None`; the empty string is
also falsy in Python, and both take the early-return branch. -/
structure Config where
  address_file : Option String
deriving DecidableEq

/-- The address file content: a JSON object mapping a network name to an
object mapping contract names to addresses, modelled as association
lists. -/
def AddressBook := List (String × List (String × String))

/-- The filesystem as seen by `os.path.exists` plus `json.load`: a partial
map from file names to parsed address books.  `none` means the file does
not exist. -/
def FileSystem := String → Option AddressBook

/-- Python `dict.get(key, None)` on a string-keyed association list. -/
def dictGet (d : List (String × String)) (key : String) : Option String :=
  (d.find? (fun kv => kv.1 == key)).map (fun kv => kv.2)

/-- Python `dict.get(key, None)` on the outer network-keyed object. -/
def dictGetBook (d : List (String × List (String × String))) (key : String) :
    Option (List (String × String)) :=
  (d.find? (fun kv => kv.1 == key)).map (fun kv => kv.2)

/-- util.py `get_contracts_addresses`: returns `None` when the configured
address file is falsy or does not exist, otherwise the parsed file entry
for the network (`None` when absent). -/
def get_contracts_addresses (network : String) (config : Config) (fs : FileSystem) :
    Option (List (String × String)) :=
  match config.address_file with
  | none => none
  | some f =>
    if f.isEmpty then none
    else
      match fs f with
      | none => none
      | some addresses => dictGetBook addresses network

/-- Modelled from the spec: the `CONTRACT_NAME` constant of the `DTFactory`
wrapper class, whose module is not under src/.  The spec describes the
factory wrappers only as per-contract call wrappers; the concrete name does
not affect any stated property. -/
def DTFactory_CONTRACT_NAME : String := "DTFactory"

/-- Modelled from the spec: the `CONTRACT_NAME` constant of the `SFactory`
wrapper class, whose module is not under src/. -/
def SFactory_CONTRACT_NAME : String := "SFactory"

/-- util.py `get_dtfactory_address` for an explicitly given network name:
`get_contracts_addresses(network, config).get(DTFactory.CONTRACT_NAME)`.
When `get_contracts_addresses` returns `None`, the `.get` attribute access
on `None` raises `AttributeError`.  (The `network=None` default, which asks
a web3 helper outside this repository for the network name, is outside the
model; the claim concerns the lookup on a given network.) -/
def get_dtfactory_address (network : String) (config : Config) (fs : FileSystem) :
    Except UtilError (Option String) :=
  match get_contracts_addresses network config fs with
  | none => Except.error UtilError.attributeError
  | some addresses => Except.ok (dictGet addresses DTFactory_CONTRACT_NAME)

/-- util.py `get_sfactory_address` for an explicitly given network name. -/
def get_sfactory_address (network : String) (config : Config) (fs : FileSystem) :
    Except UtilError (Option String) :=
  match get_contracts_addresses network config fs with
  | none => Except.error UtilError.attributeError
  | some addresses => Except.ok (dictGet addresses SFactory_CONTRACT_NAME)

/-- util.py `get_ocean_token_address` for an explicitly given network name:
looks up the literal key `Ocean`. -/
def get_ocean_token_address (network : String) (config : Config) (fs : FileSystem) :
    Except UtilError (Option String) :=
  match get_contracts_addresses network config fs with
  | none => Except.error UtilError.attributeError
  | some addresses => Except.ok (dictGet addresses "Ocean")

/-! ## bpool.py: the BPool remote-contract wrapper

`BPool` extends a contract base class (not under src/) that provides
`send_transaction` and the read-only `contract.caller` proxy.  We model the
two remote channels abstractly: a transaction channel mapping a submitted
call to its transaction id, and a read-only caller mapping a query to the
raw remote response.  Every BPool method body in bpool.py either submits
one transaction or forwards one caller query. -/

/-- A marshalled argument of a remote contract call: bpool.py passes
strings (addresses), ints (amounts, weights, fees), booleans, lists of
ints and lists of strings. -/
inductive EvmArg where
  | str (s : String)
  | int (i : ℤ)
  | bool (b : Bool)
  | intList (l : List ℤ)
  | strList (l : List String)
deriving DecidableEq, Repr

/-- The wallet argument every transaction method takes; its contents are
opaque to bpool.py, which only forwards it to `send_transaction`. -/
structure Wallet where
  address : String
deriving DecidableEq, Repr

/-- The per-transaction options dictionary bpool.py sometimes passes to
`send_transaction` (only `setup` does, with a gas limit). -/
structure TxOptions where
  gas : ℤ
deriving DecidableEq, Repr

/-- A fully marshalled transaction submission: remote function name, the
argument tuple in order, the sending wallet, and optional options. -/
structure TxCall where
  fnName : String
  args : List EvmArg
  fromWallet : Wallet
  options : Option TxOptions
deriving DecidableEq, Repr

/-- A read-only query through `contract.caller`: remote function name and
argument tuple. -/
structure QueryCall where
  fnName : String
  args : List EvmArg
deriving DecidableEq, Repr

/-- The remote blockchain node as seen by one wrapper object: the
transaction channel (returns the transaction id string) and the read-only
contract caller (returns the raw remote response). -/
structure BPool where
  transact : TxCall → String
  respond : QueryCall → EvmArg

/-- Modelled from the spec: `send_transaction` of the contract base class
(not under src/) submits the named remote function with the given argument
tuple and wallet over the remote channel and returns the transaction id;
the spec states every operation is a direct pass-through to a remote call. -/
def BPool.send_transaction (p : BPool) (fn : String) (args : List EvmArg)
    (w : Wallet) (opts : Option TxOptions := none) : String :=
  p.transact ⟨fn, args, w, opts⟩

/-- Modelled from the spec: the gas-limit constant
`GASLIMIT_BFACTORY_NEWBPOOL` from `balancer_constants` (not under src/);
its concrete value does not affect any stated property. -/
def GASLIMIT_BFACTORY_NEWBPOOL : ℤ := 5000000

/-- Modelled from the spec: the `BPoolInitialized` structure from
`models_structures` (not under src/); the field names are those read by
`BPool.initialize` in bpool.py and the field types follow their marshalled
use. -/
structure BPoolInitialized where
  controller : String
  factory : String
  swap_fees : List ℤ
  public_swap : Bool
  finalized : Bool
  tokens : List String
  fee_collectors : List String
deriving DecidableEq, Repr

/-- bpool.py `initialize` (named `initializePool` here for syntactic
reasons): submits `initialize` with the fields of the structure in
declaration order. -/
def BPool.initializePool (p : BPool) (bi : BPoolInitialized) (w : Wallet) : String :=
  p.send_transaction "initialize"
    [EvmArg.str bi.controller, EvmArg.str bi.factory, EvmArg.intList bi.swap_fees,
     EvmArg.bool bi.public_swap, EvmArg.bool bi.finalized, EvmArg.strList bi.tokens,
     EvmArg.strList bi.fee_collectors] w

/-- bpool.py `setup`: submits `setup` with the seven caller arguments and a
gas-limit option. -/
def BPool.setup (p : BPool) (data_token : String) (data_token_amount : ℤ)
    (data_token_weight : ℤ) (base_token : String) (base_token_amount : ℤ)
    (base_token_weight : ℤ) (swap_fee : ℤ) (w : Wallet) : String :=
  p.send_transaction "setup"
    [EvmArg.str data_token, EvmArg.int data_token_amount, EvmArg.int data_token_weight,
     EvmArg.str base_token, EvmArg.int base_token_amount, EvmArg.int base_token_weight,
     EvmArg.int swap_fee] w (some ⟨GASLIMIT_BFACTORY_NEWBPOOL⟩)

/-- bpool.py `is_public_pool`: forwards `isPublicSwap()`. -/
def BPool.is_public_pool (p : BPool) : EvmArg :=
  p.respond ⟨"isPublicSwap", []⟩

/-- bpool.py `opf_fee`: forwards `getOPFFee()`. -/
def BPool.opf_fee (p : BPool) : EvmArg :=
  p.respond ⟨"getOPFFee", []⟩

/-- bpool.py `community_fee`: forwards `communityFees(address)`. -/
def BPool.community_fee (p : BPool) (address : String) : EvmArg :=
  p.respond ⟨"communityFees", [EvmArg.str address]⟩

/-- bpool.py `market_fee`: forwards `marketFees(address)`. -/
def BPool.market_fee (p : BPool) (address : String) : EvmArg :=
  p.respond ⟨"marketFees", [EvmArg.str address]⟩

/-- bpool.py `is_finalized`: forwards `isFinalized()`. -/
def BPool.is_finalized (p : BPool) : EvmArg :=
  p.respond ⟨"isFinalized", []⟩

/-- bpool.py `is_bound`: forwards `isBound(token_address)`. -/
def BPool.is_bound (p : BPool) (token_address : String) : EvmArg :=
  p.respond ⟨"isBound", [EvmArg.str token_address]⟩

/-- bpool.py `get_num_tokens`: forwards `getNumTokens()`. -/
def BPool.get_num_tokens (p : BPool) : EvmArg :=
  p.respond ⟨"getNumTokens", []⟩

/-- bpool.py `get_current_tokens`: forwards `getCurrentTokens()`. -/
def BPool.get_current_tokens (p : BPool) : EvmArg :=
  p.respond ⟨"getCurrentTokens", []⟩

/-- bpool.py `get_final_tokens`: forwards `getFinalTokens()`. -/
def BPool.get_final_tokens (p : BPool) : EvmArg :=
  p.respond ⟨"getFinalTokens", []⟩

/-- bpool.py `collect_opf`: submits `collectOPF(dst)`. -/
def BPool.collect_opf (p : BPool) (dst : String) (w : Wallet) : String :=
  p.send_transaction "collectOPF" [EvmArg.str dst] w

/-- bpool.py `collect_market_fee`: submits `collectMarketFee(dst)`. -/
def BPool.collect_market_fee (p : BPool) (dst : String) (w : Wallet) : String :=
  p.send_transaction "collectMarketFee" [EvmArg.str dst] w

/-- bpool.py `update_market_fee_collector`: submits
`updateMarketFeeCollector(new_collector)`. -/
def BPool.update_market_fee_collector (p : BPool) (new_collector : String)
    (w : Wallet) : String :=
  p.send_transaction "updateMarketFeeCollector" [EvmArg.str new_collector] w

/-- bpool.py `get_denormalized_weight`: forwards
`getDenormalizedWeight(token_address)`. -/
def BPool.get_denormalized_weight (p : BPool) (token_address : String) : EvmArg :=
  p.respond ⟨"getDenormalizedWeight", [EvmArg.str token_address]⟩

/-- bpool.py `get_total_denormalized_weight`: forwards
`getTotalDenormalizedWeight()`. -/
def BPool.get_total_denormalized_weight (p : BPool) : EvmArg :=
  p.respond ⟨"getTotalDenormalizedWeight", []⟩

/-- bpool.py `get_normalized_weight`: forwards
`getNormalizedWeight(token_address)`. -/
def BPool.get_normalized_weight (p : BPool) (token_address : String) : EvmArg :=
  p.respond ⟨"getNormalizedWeight", [EvmArg.str token_address]⟩

/-- bpool.py `get_balance`: forwards `getBalance(token_address)`. -/
def BPool.get_balance (p : BPool) (token_address : String) : EvmArg :=
  p.respond ⟨"getBalance", [EvmArg.str token_address]⟩

/-- bpool.py `get_swap_fee`: forwards `getSwapFee()`. -/
def BPool.get_swap_fee (p : BPool) : EvmArg :=
  p.respond ⟨"getSwapFee", []⟩

/-- bpool.py `get_controller`: forwards `getController()`. -/
def BPool.get_controller (p : BPool) : EvmArg :=
  p.respond ⟨"getController", []⟩

/-- bpool.py `get_data_token_address`: forwards `getDataTokenAddress()`. -/
def BPool.get_data_token_address (p : BPool) : EvmArg :=
  p.respond ⟨"getDataTokenAddress", []⟩

/-- bpool.py `get_base_token_address`: forwards `getBaseTokenAddress()`. -/
def BPool.get_base_token_address (p : BPool) : EvmArg :=
  p.respond ⟨"getBaseTokenAddress", []⟩

/-- bpool.py `set_swap_fee`: submits `setSwapFee(swap_fee)`. -/
def BPool.set_swap_fee (p : BPool) (swap_fee : ℤ) (w : Wallet) : String :=
  p.send_transaction "setSwapFee" [EvmArg.int swap_fee] w

/-- bpool.py `finalize`: submits `finalize()` with an empty argument
tuple. -/
def BPool.finalize (p : BPool) (w : Wallet) : String :=
  p.send_transaction "finalize" [] w

/-- bpool.py `bind`: submits `bind(token_address, balance, weight)`. -/
def BPool.bind (p : BPool) (token_address : String) (balance weight : ℤ)
    (w : Wallet) : String :=
  p.send_transaction "bind"
    [EvmArg.str token_address, EvmArg.int balance, EvmArg.int weight] w

/-- bpool.py `rebind`: submits `rebind(token_address, balance, weight)`. -/
def BPool.rebind (p : BPool) (token_address : String) (balance weight : ℤ)
    (w : Wallet) : String :=
  p.send_transaction "rebind"
    [EvmArg.str token_address, EvmArg.int balance, EvmArg.int weight] w

/-- bpool.py `get_spot_price`: forwards `getSpotPrice(token_in, token_out)`. -/
def BPool.get_spot_price (p : BPool) (token_in token_out : String) : EvmArg :=
  p.respond ⟨"getSpotPrice", [EvmArg.str token_in, EvmArg.str token_out]⟩

/-- bpool.py `join_pool`: submits `joinPool(pool_amount_out, max_amounts_in)`. -/
def BPool.join_pool (p : BPool) (pool_amount_out : ℤ) (max_amounts_in : List ℤ)
    (w : Wallet) : String :=
  p.send_transaction "joinPool"
    [EvmArg.int pool_amount_out, EvmArg.intList max_amounts_in] w

/-- bpool.py `exit_pool`: submits `exitPool(pool_amount_in, min_amounts_out)`. -/
def BPool.exit_pool (p : BPool) (pool_amount_in : ℤ) (min_amounts_out : List ℤ)
    (w : Wallet) : String :=
  p.send_transaction "exitPool"
    [EvmArg.int pool_amount_in, EvmArg.intList min_amounts_out] w

/-- bpool.py `swap_exact_amount_in`: submits `swapExactAmountIn` with the
five caller arguments in order. -/
def BPool.swap_exact_amount_in (p : BPool) (tokenIn_address : String)
    (tokenAmountIn : ℤ) (tokenOut_address : String) (minAmountOut maxPrice : ℤ)
    (w : Wallet) : String :=
  p.send_transaction "swapExactAmountIn"
    [EvmArg.str tokenIn_address, EvmArg.int tokenAmountIn,
     EvmArg.str tokenOut_address, EvmArg.int minAmountOut, EvmArg.int maxPrice] w

/-- bpool.py `swap_exact_amount_out`: submits `swapExactAmountOut` with the
five caller arguments in order. -/
def BPool.swap_exact_amount_out (p : BPool) (tokenIn_address : String)
    (maxAmountIn : ℤ) (tokenOut_address : String) (tokenAmountOut maxPrice : ℤ)
    (w : Wallet) : String :=
  p.send_transaction "swapExactAmountOut"
    [EvmArg.str tokenIn_address, EvmArg.int maxAmountIn,
     EvmArg.str tokenOut_address, EvmArg.int tokenAmountOut, EvmArg.int maxPrice] w

/-- bpool.py `join_swap_extern_amount_in`: submits
`joinswapExternAmountIn(tokenIn_address, tokenAmountIn, minPoolAmountOut)`. -/
def BPool.join_swap_extern_amount_in (p : BPool) (tokenIn_address : String)
    (tokenAmountIn minPoolAmountOut : ℤ) (w : Wallet) : String :=
  p.send_transaction "joinswapExternAmountIn"
    [EvmArg.str tokenIn_address, EvmArg.int tokenAmountIn,
     EvmArg.int minPoolAmountOut] w

/-- bpool.py `join_swap_pool_amount_out`: submits
`joinswapPoolAmountOut(tokenIn_address, poolAmountOut, maxAmountIn)`. -/
def BPool.join_swap_pool_amount_out (p : BPool) (tokenIn_address : String)
    (poolAmountOut maxAmountIn : ℤ) (w : Wallet) : String :=
  p.send_transaction "joinswapPoolAmountOut"
    [EvmArg.str tokenIn_address, EvmArg.int poolAmountOut,
     EvmArg.int maxAmountIn] w

/-- bpool.py `exit_swap_pool_amount_in`: submits
`exitswapPoolAmountIn(tokenOut_address, poolAmountIn, minAmountOut)`. -/
def BPool.exit_swap_pool_amount_in (p : BPool) (tokenOut_address : String)
    (poolAmountIn minAmountOut : ℤ) (w : Wallet) : String :=
  p.send_transaction "exitswapPoolAmountIn"
    [EvmArg.str tokenOut_address, EvmArg.int poolAmountIn,
     EvmArg.int minAmountOut] w

/-- bpool.py `exit_swap_extern_amount_out`: submits
`exitswapExternAmountOut(tokenOut_address, tokenAmountOut, maxPoolAmountIn)`. -/
def BPool.exit_swap_extern_amount_out (p : BPool) (tokenOut_address : String)
    (tokenAmountOut maxPoolAmountIn : ℤ) (w : Wallet) : String :=
  p.send_transaction "exitswapExternAmountOut"
    [EvmArg.str tokenOut_address, EvmArg.int tokenAmountOut,
     EvmArg.int maxPoolAmountIn] w

/-! ## A uniform view of the BPool methods

To state frame, determinism and independence properties over all wrapper
methods at once, the methods are reified as one call type and a dispatcher.
A Python method could mutate its object, so the dispatcher has the general
shape `object → call → object × result`; each arm mirrors one method body
of bpool.py, none of which assigns to `self`, so each arm returns the
object unchanged next to the method's result. -/

/-- One invocation of a public BPool wrapper method, with its caller-supplied
arguments. -/
inductive BPoolCall where
  | initializePool (bi : BPoolInitialized) (w : Wallet)
  | setup (dt : String) (dta dtw : ℤ) (bt : String) (bta btw fee : ℤ) (w : Wallet)
  | is_public_pool
  | opf_fee
  | community_fee (address : String)
  | market_fee (address : String)
  | is_finalized
  | is_bound (token_address : String)
  | get_num_tokens
  | get_current_tokens
  | get_final_tokens
  | collect_opf (dst : String) (w : Wallet)
  | collect_market_fee (dst : String) (w : Wallet)
  | update_market_fee_collector (c : String) (w : Wallet)
  | get_denormalized_weight (token_address : String)
  | get_total_denormalized_weight
  | get_normalized_weight (token_address : String)
  | get_balance (token_address : String)
  | get_swap_fee
  | get_controller
  | get_data_token_address
  | get_base_token_address
  | set_swap_fee (fee : ℤ) (w : Wallet)
  | finalize (w : Wallet)
  | bind (token_address : String) (balance weight : ℤ) (w : Wallet)
  | rebind (token_address : String) (balance weight : ℤ) (w : Wallet)
  | get_spot_price (token_in token_out : String)
  | join_pool (amount : ℤ) (maxes : List ℤ) (w : Wallet)
  | exit_pool (amount : ℤ) (mins : List ℤ) (w : Wallet)
  | swap_exact_amount_in (ti : String) (ain : ℤ) (tout : String) (minOut maxPrice : ℤ) (w : Wallet)
  | swap_exact_amount_out (ti : String) (maxIn : ℤ) (tout : String) (aout maxPrice : ℤ) (w : Wallet)
  | join_swap_extern_amount_in (ti : String) (ain minPoolOut : ℤ) (w : Wallet)
  | join_swap_pool_amount_out (ti : String) (poolOut maxIn : ℤ) (w : Wallet)
  | exit_swap_pool_amount_in (tout : String) (poolIn minOut : ℤ) (w : Wallet)
  | exit_swap_extern_amount_out (tout : String) (aout maxPoolIn : ℤ) (w : Wallet)

/-- The value a BPool wrapper method returns: the transaction id string
for transaction methods, the raw remote response for query methods. -/
inductive BPoolResult where
  | txId (s : String)
  | response (a : EvmArg)
deriving DecidableEq, Repr

/-- Dispatcher over the BPool wrapper methods: runs the method on the
wrapper object and returns the (possibly updated) object with the method's
result.  Every arm corresponds to one method body of bpool.py. -/
def BPool.call (p : BPool) : BPoolCall → BPool × BPoolResult
  | .initializePool bi w => (p, .txId (p.initializePool bi w))
  | .setup dt dta dtw bt bta btw fee w => (p, .txId (p.setup dt dta dtw bt bta btw fee w))
  | .is_public_pool => (p, .response p.is_public_pool)
  | .opf_fee => (p, .response p.opf_fee)
  | .community_fee a => (p, .response (p.community_fee a))
  | .market_fee a => (p, .response (p.market_fee a))
  | .is_finalized => (p, .response p.is_finalized)
  | .is_bound t => (p, .response (p.is_bound t))
  | .get_num_tokens => (p, .response p.get_num_tokens)
  | .get_current_tokens => (p, .response p.get_current_tokens)
  | .get_final_tokens => (p, .response p.get_final_tokens)
  | .collect_opf d w => (p, .txId (p.collect_opf d w))
  | .collect_market_fee d w => (p, .txId (p.collect_market_fee d w))
  | .update_market_fee_collector c w => (p, .txId (p.update_market_fee_collector c w))
  | .get_denormalized_weight t => (p, .response (p.get_denormalized_weight t))
  | .get_total_denormalized_weight => (p, .response p.get_total_denormalized_weight)
  | .get_normalized_weight t => (p, .response (p.get_normalized_weight t))
  | .get_balance t => (p, .response (p.get_balance t))
  | .get_swap_fee => (p, .response p.get_swap_fee)
  | .get_controller => (p, .response p.get_controller)
  | .get_data_token_address => (p, .response p.get_data_token_address)
  | .get_base_token_address => (p, .response p.get_base_token_address)
  | .set_swap_fee fee w => (p, .txId (p.set_swap_fee fee w))
  | .finalize w => (p, .txId (p.finalize w))
  | .bind t b wt w => (p, .txId (p.bind t b wt w))
  | .rebind t b wt w => (p, .txId (p.rebind t b wt w))
  | .get_spot_price ti tout => (p, .response (p.get_spot_price ti tout))
  | .join_pool a m w => (p, .txId (p.join_pool a m w))
  | .exit_pool a m w => (p, .txId (p.exit_pool a m w))
  | .swap_exact_amount_in ti ain tout mo mp w => (p, .txId (p.swap_exact_amount_in ti ain tout mo mp w))
  | .swap_exact_amount_out ti mi tout ao mp w => (p, .txId (p.swap_exact_amount_out ti mi tout ao mp w))
  | .join_swap_extern_amount_in ti ain mpo w => (p, .txId (p.join_swap_extern_amount_in ti ain mpo w))
  | .join_swap_pool_amount_out ti po mi w => (p, .txId (p.join_swap_pool_amount_out ti po mi w))
  | .exit_swap_pool_amount_in tout pin mo w => (p, .txId (p.exit_swap_pool_amount_in tout pin mo w))
  | .exit_swap_extern_amount_out tout ao mpi w => (p, .txId (p.exit_swap_extern_amount_out tout ao mpi w))

/-- Runs a sequence of wrapper method calls, threading the wrapper object. -/
def BPool.runCalls (p : BPool) (cs : List BPoolCall) : BPool :=
  cs.foldl (fun q c => (BPool.call q c).1) p

/-- Each dispatcher arm returns the wrapper object unchanged: no method
body of bpool.py assigns to `self`. -/
theorem BPool.call_fst (p : BPool) (c : BPoolCall) : (BPool.call p c).1 = p := by
  cases c <;> rfl

/-- Running any sequence of wrapper calls leaves the wrapper object
unchanged. -/
theorem BPool.runCalls_eq (p : BPool) (cs : List BPoolCall) :
    BPool.runCalls p cs = p := by
  induction cs generalizing p with
  | nil => rfl
  | cons c cs ih => simp [BPool.runCalls, BPool.call_fst, ih p]

/-! ## Remote-operation view of the helpers

To state whether an operation's result can be computed from its arguments
alone, without the remote system, the pure helpers of util.py are lifted
into the remote-operation signature `BPool → α`; their Python bodies make
no remote call, so the lifted operations ignore the world argument. -/

/-- An operation over a remote world is self-contained when its result does
not depend on the remote system at all: any two worlds give the same
result. -/
def selfContained {α : Type} (f : BPool → α) : Prop :=
  ∀ w₁ w₂ : BPool, f w₁ = f w₂

/-- `to_base` in the remote-operation signature. -/
def toBaseRemoteOp (amt : ℚ) (dec : ℕ) : BPool → ℤ :=
  fun _ => to_base amt dec

/-- `to_base_18` in the remote-operation signature. -/
def toBase18RemoteOp (amt : ℚ) : BPool → ℤ :=
  fun _ => to_base_18 amt

/-- `from_base` in the remote-operation signature. -/
def fromBaseRemoteOp (num_base : ℤ) (dec : ℕ) : BPool → ℚ :=
  fun _ => from_base num_base dec

/-- `from_base_18` in the remote-operation signature. -/
def fromBase18RemoteOp (num_base : ℤ) : BPool → ℚ :=
  fun _ => from_base_18 num_base

/-- `get_infura_url` in the remote-operation signature. -/
def infuraUrlRemoteOp (infura_id network : String) : BPool → String :=
  fun _ => get_infura_url infura_id network

/-- A concrete remote world: every transaction returns the empty id, every
query answers `int 0`. -/
def constWorld : BPool :=
  ⟨fun _ => "", fun _ => EvmArg.int 0⟩

/-- A second concrete remote world answering differently from `constWorld`. -/
def constWorldOne : BPool :=
  ⟨fun _ => "tx1", fun _ => EvmArg.int 1⟩

/-! ## Theorems -/

/-- `pyIntTrunc` is the identity on integers. -/
theorem pyIntTrunc_intCast (k : ℤ) : pyIntTrunc (k : ℚ) = k := by
  unfold pyIntTrunc
  split <;> simp

/-- Round-trip lemma on exactly representable amounts: when `amt * 10^dec`
is an integer, converting to base units and back returns `amt`. -/
theorem from_base_to_base_exact (amt : ℚ) (dec : ℕ) (k : ℤ)
    (h : amt * 10 ^ dec = (k : ℚ)) :
    from_base (to_base amt dec) dec = amt := by
  have h10 : (10 : ℚ) ^ dec ≠ 0 := pow_ne_zero _ (by norm_num)
  unfold to_base from_base
  rw [one_mul, h, pyIntTrunc_intCast, ← h, mul_div_cancel_right₀ _ h10]

/-- C9: the base-18 helpers are definitional specializations of the general
helpers at `dec = 18`: `to_base_18 amt = to_base amt 18` and
`from_base_18 num_base = from_base num_base 18` for all inputs. -/
theorem c9_base18_specialization :
    (∀ amt : ℚ, to_base_18 amt = to_base amt 18) ∧
    (∀ num_base : ℤ, from_base_18 num_base = from_base num_base 18) :=
  ⟨fun _ => rfl, fun _ => rfl⟩

/-- C4 counterexample: the round trip fails at `amt = 1/2`, `dec = 0`:
`to_base (1/2) 0 = int(1/2) = 0` by truncation, and `from_base 0 0 = 0`,
not `1/2`. -/
theorem c4_counterexample :
    from_base (to_base (1 / 2 : ℚ) 0) 0 ≠ (1 / 2 : ℚ) := by
  norm_num [from_base, to_base, pyIntTrunc]

/-- C4 (amended): the unit-conversion helpers are mutually inverse exactly
on amounts representable in the target base: for every `amt` and `dec` with
`amt * 10^dec` an integer, `from_base (to_base amt dec) dec = amt`, and in
particular `from_base_18 (to_base_18 amt) = amt` whenever `amt * 10^18` is
an integer. -/
theorem c4_roundtrip_on_exact_amounts :
    (∀ (amt : ℚ) (dec : ℕ), (∃ k : ℤ, amt * 10 ^ dec = (k : ℚ)) →
        from_base (to_base amt dec) dec = amt) ∧
    (∀ amt : ℚ, (∃ k : ℤ, amt * 10 ^ 18 = (k : ℚ)) →
        from_base_18 (to_base_18 amt) = amt) := by
  constructor
  · rintro amt dec ⟨k, hk⟩
    exact from_base_to_base_exact amt dec k hk
  · rintro amt ⟨k, hk⟩
    exact from_base_to_base_exact amt 18 k hk

/-- C4 witness: concrete exact round trips, `amt = 3/100` at `dec = 2` and
`amt = 7` at base 18. -/
theorem c4_roundtrip_on_exact_amounts_witness :
    from_base (to_base (3 / 100 : ℚ) 2) 2 = (3 / 100 : ℚ) ∧
    from_base_18 (to_base_18 (7 : ℚ)) = (7 : ℚ) :=
  ⟨c4_roundtrip_on_exact_amounts.1 (3 / 100) 2 ⟨3, by norm_num⟩,
   c4_roundtrip_on_exact_amounts.2 7 ⟨7 * 10 ^ 18, by norm_num⟩⟩

/-- C5: no BPool wrapper method mutates the wrapper object: dispatching any
method call returns the object with every field unchanged. -/
theorem c5_no_local_state_mutation (p : BPool) (c : BPoolCall) :
    (BPool.call p c).1 = p :=
  BPool.call_fst p c

/-- C6: wrapper calls are deterministic and independent: the result of any
method call on a wrapper object is the same after any two histories of
prior wrapper calls (in particular after no history), so identical
arguments and identical remote responders always give identical results and
no local ordering between calls exists. -/
theorem c6_calls_deterministic_and_independent (p : BPool)
    (hist₁ hist₂ : List BPoolCall) (c : BPoolCall) :
    (BPool.call (BPool.runCalls p hist₁) c).2 =
      (BPool.call (BPool.runCalls p hist₂) c).2 := by
  rw [BPool.runCalls_eq, BPool.runCalls_eq]

/-- C3 counterexample: `to_base` is a self-contained operation: lifted to
the remote-operation signature at input `(2, 3)` it returns `2000` on a
concrete world and its result does not depend on the remote world at all,
contradicting the claim that no operation's result can be computed from its
arguments alone. -/
theorem c3_counterexample :
    selfContained (toBaseRemoteOp 2 3) ∧ toBaseRemoteOp 2 3 constWorld = 2000 :=
  ⟨fun _ _ => rfl, by norm_num [toBaseRemoteOp, to_base, pyIntTrunc]⟩

/-- C3 (amended): the BPool wrapper operations genuinely depend on the
remote system (two worlds can disagree on a query's result and on a
transaction's id), but the unit-conversion and url helpers of util.py are
self-contained: their results are computed from their arguments alone. -/
theorem c3_helpers_self_contained_wrappers_remote :
    (∀ (amt : ℚ) (dec : ℕ), selfContained (toBaseRemoteOp amt dec))
  ∧ (∀ amt : ℚ, selfContained (toBase18RemoteOp amt))
  ∧ (∀ (num_base : ℤ) (dec : ℕ), selfContained (fromBaseRemoteOp num_base dec))
  ∧ (∀ num_base : ℤ, selfContained (fromBase18RemoteOp num_base))
  ∧ (∀ infura_id network : String, selfContained (infuraUrlRemoteOp infura_id network))
  ∧ ¬ selfContained (fun p : BPool => p.is_finalized)
  ∧ ¬ selfContained (fun p : BPool => p.finalize ⟨"wallet"⟩) := by
  refine ⟨fun _ _ _ _ => rfl, fun _ _ _ => rfl, fun _ _ _ _ => rfl,
    fun _ _ _ => rfl, fun _ _ _ _ => rfl, fun h => ?_, fun h => ?_⟩
  · have := h constWorld constWorldOne
    simp [BPool.is_finalized, constWorld, constWorldOne] at this
  · have := h constWorld constWorldOne
    simp [BPool.finalize, BPool.send_transaction, constWorld, constWorldOne] at this

/-- C3 witness: the self-containedness of `to_base` applied at the concrete
input `(5, 2)` and two concrete remote worlds. -/
theorem c3_helpers_self_contained_witness :
    toBaseRemoteOp 5 2 constWorld = toBaseRemoteOp 5 2 constWorldOne :=
  c3_helpers_self_contained_wrappers_remote.1 5 2 constWorld constWorldOne

/-- C1: every public BPool operation is a direct pass-through: each
transaction method submits exactly the documented remote function name with
the caller-supplied arguments, unmodified and in order (only `setup` adds a
gas-limit option), and each query method returns the remote contract
caller's raw response unchanged. -/
theorem c1_bpool_methods_pass_through :
    (∀ (p : BPool) (bi : BPoolInitialized) (w : Wallet),
      p.initializePool bi w = p.transact ⟨"initialize",
        [EvmArg.str bi.controller, EvmArg.str bi.factory, EvmArg.intList bi.swap_fees,
         EvmArg.bool bi.public_swap, EvmArg.bool bi.finalized, EvmArg.strList bi.tokens,
         EvmArg.strList bi.fee_collectors], w, none⟩)
  ∧ (∀ (p : BPool) (dt : String) (dta dtw : ℤ) (bt : String) (bta btw fee : ℤ) (w : Wallet),
      p.setup dt dta dtw bt bta btw fee w = p.transact ⟨"setup",
        [EvmArg.str dt, EvmArg.int dta, EvmArg.int dtw, EvmArg.str bt,
         EvmArg.int bta, EvmArg.int btw, EvmArg.int fee], w,
        some ⟨GASLIMIT_BFACTORY_NEWBPOOL⟩⟩)
  ∧ (∀ p : BPool, p.is_public_pool = p.respond ⟨"isPublicSwap", []⟩)
  ∧ (∀ p : BPool, p.opf_fee = p.respond ⟨"getOPFFee", []⟩)
  ∧ (∀ (p : BPool) (a : String), p.community_fee a = p.respond ⟨"communityFees", [EvmArg.str a]⟩)
  ∧ (∀ (p : BPool) (a : String), p.market_fee a = p.respond ⟨"marketFees", [EvmArg.str a]⟩)
  ∧ (∀ p : BPool, p.is_finalized = p.respond ⟨"isFinalized", []⟩)
  ∧ (∀ (p : BPool) (t : String), p.is_bound t = p.respond ⟨"isBound", [EvmArg.str t]⟩)
  ∧ (∀ p : BPool, p.get_num_tokens = p.respond ⟨"getNumTokens", []⟩)
  ∧ (∀ p : BPool, p.get_current_tokens = p.respond ⟨"getCurrentTokens", []⟩)
  ∧ (∀ p : BPool, p.get_final_tokens = p.respond ⟨"getFinalTokens", []⟩)
  ∧ (∀ (p : BPool) (d : String) (w : Wallet),
      p.collect_opf d w = p.transact ⟨"collectOPF", [EvmArg.str d], w, none⟩)
  ∧ (∀ (p : BPool) (d : String) (w : Wallet),
      p.collect_market_fee d w = p.transact ⟨"collectMarketFee", [EvmArg.str d], w, none⟩)
  ∧ (∀ (p : BPool) (c : String) (w : Wallet),
      p.update_market_fee_collector c w =
        p.transact ⟨"updateMarketFeeCollector", [EvmArg.str c], w, none⟩)
  ∧ (∀ (p : BPool) (t : String),
      p.get_denormalized_weight t = p.respond ⟨"getDenormalizedWeight", [EvmArg.str t]⟩)
  ∧ (∀ p : BPool,
      p.get_total_denormalized_weight = p.respond ⟨"getTotalDenormalizedWeight", []⟩)
  ∧ (∀ (p : BPool) (t : String),
      p.get_normalized_weight t = p.respond ⟨"getNormalizedWeight", [EvmArg.str t]⟩)
  ∧ (∀ (p : BPool) (t : String), p.get_balance t = p.respond ⟨"getBalance", [EvmArg.str t]⟩)
  ∧ (∀ p : BPool, p.get_swap_fee = p.respond ⟨"getSwapFee", []⟩)
  ∧ (∀ p : BPool, p.get_controller = p.respond ⟨"getController", []⟩)
  ∧ (∀ p : BPool, p.get_data_token_address = p.respond ⟨"getDataTokenAddress", []⟩)
  ∧ (∀ p : BPool, p.get_base_token_address = p.respond ⟨"getBaseTokenAddress", []⟩)
  ∧ (∀ (p : BPool) (fee : ℤ) (w : Wallet),
      p.set_swap_fee fee w = p.transact ⟨"setSwapFee", [EvmArg.int fee], w, none⟩)
  ∧ (∀ (p : BPool) (w : Wallet), p.finalize w = p.transact ⟨"finalize", [], w, none⟩)
  ∧ (∀ (p : BPool) (t : String) (b wt : ℤ) (w : Wallet),
      p.bind t b wt w =
        p.transact ⟨"bind", [EvmArg.str t, EvmArg.int b, EvmArg.int wt], w, none⟩)
  ∧ (∀ (p : BPool) (t : String) (b wt : ℤ) (w : Wallet),
      p.rebind t b wt w =
        p.transact ⟨"rebind", [EvmArg.str t, EvmArg.int b, EvmArg.int wt], w, none⟩)
  ∧ (∀ (p : BPool) (ti tout : String),
      p.get_spot_price ti tout = p.respond ⟨"getSpotPrice", [EvmArg.str ti, EvmArg.str tout]⟩)
  ∧ (∀ (p : BPool) (a : ℤ) (m : List ℤ) (w : Wallet),
      p.join_pool a m w = p.transact ⟨"joinPool", [EvmArg.int a, EvmArg.intList m], w, none⟩)
  ∧ (∀ (p : BPool) (a : ℤ) (m : List ℤ) (w : Wallet),
      p.exit_pool a m w = p.transact ⟨"exitPool", [EvmArg.int a, EvmArg.intList m], w, none⟩)
  ∧ (∀ (p : BPool) (ti : String) (ain : ℤ) (tout : String) (mo mp : ℤ) (w : Wallet),
      p.swap_exact_amount_in ti ain tout mo mp w = p.transact ⟨"swapExactAmountIn",
        [EvmArg.str ti, EvmArg.int ain, EvmArg.str tout, EvmArg.int mo, EvmArg.int mp],
        w, none⟩)
  ∧ (∀ (p : BPool) (ti : String) (mi : ℤ) (tout : String) (ao mp : ℤ) (w : Wallet),
      p.swap_exact_amount_out ti mi tout ao mp w = p.transact ⟨"swapExactAmountOut",
        [EvmArg.str ti, EvmArg.int mi, EvmArg.str tout, EvmArg.int ao, EvmArg.int mp],
        w, none⟩)
  ∧ (∀ (p : BPool) (ti : String) (ain mpo : ℤ) (w : Wallet),
      p.join_swap_extern_amount_in ti ain mpo w = p.transact ⟨"joinswapExternAmountIn",
        [EvmArg.str ti, EvmArg.int ain, EvmArg.int mpo], w, none⟩)
  ∧ (∀ (p : BPool) (ti : String) (po mi : ℤ) (w : Wallet),
      p.join_swap_pool_amount_out ti po mi w = p.transact ⟨"joinswapPoolAmountOut",
        [EvmArg.str ti, EvmArg.int po, EvmArg.int mi], w, none⟩)
  ∧ (∀ (p : BPool) (tout : String) (pin mo : ℤ) (w : Wallet),
      p.exit_swap_pool_amount_in tout pin mo w = p.transact ⟨"exitswapPoolAmountIn",
        [EvmArg.str tout, EvmArg.int pin, EvmArg.int mo], w, none⟩)
  ∧ (∀ (p : BPool) (tout : String) (ao mpi : ℤ) (w : Wallet),
      p.exit_swap_extern_amount_out tout ao mpi w = p.transact ⟨"exitswapExternAmountOut",
        [EvmArg.str tout, EvmArg.int ao, EvmArg.int mpi], w, none⟩) :=
  ⟨fun _ _ _ => rfl, fun _ _ _ _ _ _ _ _ _ => rfl, fun _ => rfl, fun _ => rfl,
   fun _ _ => rfl, fun _ _ => rfl, fun _ => rfl, fun _ _ => rfl, fun _ => rfl,
   fun _ => rfl, fun _ => rfl, fun _ _ _ => rfl, fun _ _ _ => rfl, fun _ _ _ => rfl,
   fun _ _ => rfl, fun _ => rfl, fun _ _ => rfl, fun _ _ => rfl, fun _ => rfl,
   fun _ => rfl, fun _ => rfl, fun _ => rfl, fun _ _ _ => rfl, fun _ _ => rfl,
   fun _ _ _ _ _ => rfl, fun _ _ _ _ _ => rfl, fun _ _ _ => rfl,
   fun _ _ _ _ => rfl, fun _ _ _ _ => rfl, fun _ _ _ _ _ _ _ => rfl,
   fun _ _ _ _ _ _ _ => rfl, fun _ _ _ _ _ => rfl, fun _ _ _ _ _ => rfl,
   fun _ _ _ _ _ => rfl, fun _ _ _ _ _ => rfl⟩

/-- A url starting with `ws` cannot start with `http`: the first characters
differ. -/
theorem startswith_ws_not_http (u : String) (h : startswith u "ws" = true) :
    startswith u "http" = false := by
  unfold startswith at h ⊢
  have hws : "ws".data = ['w', 's'] := rfl
  have hhttp : "http".data = ['h', 't', 't', 'p'] := rfl
  rw [hws] at h
  rw [hhttp]
  cases hd : u.data with
  | nil => rw [hd] at h; simp [List.isPrefixOf] at h
  | cons a l =>
    rw [hd] at h
    simp only [List.isPrefixOf, Bool.and_eq_true, beq_iff_eq] at h
    obtain ⟨h1, -⟩ := h
    subst h1
    have hne : ('h' == 'w') = false := rfl
    simp [List.isPrefixOf, hne]

/-- Branch lemma: http-prefixed inputs yield a `CustomHTTPProvider` on the
unchanged url. -/
theorem gwcp_http (u : String) (h : startswith u "http" = true) :
    get_web3_connection_provider u = Except.ok (Provider.customHTTP u) := by
  by_cases hg : u = "ganache"
  · subst hg; exact absurd h (by decide)
  · have hbeq : (u == "ganache") = false := beq_eq_false_iff_ne.mpr hg
    simp [get_web3_connection_provider, hbeq, h]

/-- Branch lemma: ws-prefixed inputs yield a `WebsocketProvider` on the
unchanged url. -/
theorem gwcp_ws (u : String) (h : startswith u "ws" = true) :
    get_web3_connection_provider u = Except.ok (Provider.websocket u) := by
  have hh : startswith u "http" = false := startswith_ws_not_http u h
  by_cases hg : u = "ganache"
  · subst hg; exact absurd h (by decide)
  · have hbeq : (u == "ganache") = false := beq_eq_false_iff_ne.mpr hg
    simp [get_web3_connection_provider, hbeq, hh, h]

/-- Branch lemma: inputs that are neither http- nor ws-prefixed nor a
supported network name fail the assertion. -/
theorem gwcp_assert (u : String) (h1 : startswith u "http" = false)
    (h2 : startswith u "ws" = false)
    (h3 : SUPPORTED_NETWORK_NAMES.contains u = false) :
    get_web3_connection_provider u = Except.error (UtilError.assertionError u) := by
  have hg : u ≠ "ganache" := by
    rintro rfl; exact absurd h3 (by decide)
  have hbeq : (u == "ganache") = false := beq_eq_false_iff_ne.mpr hg
  simp [get_web3_connection_provider, hbeq, h1, h2, h3]
  intro hmem
  exact (ne_true_of_eq_false h3) (List.elem_eq_true_of_mem hmem)

/-- Branch lemma: a supported network name never reaches the assertion. -/
theorem gwcp_ok_of_contains (u : String)
    (h3 : SUPPORTED_NETWORK_NAMES.contains u = true) :
    ∃ p, get_web3_connection_provider u = Except.ok p := by
  by_cases hg : u = "ganache"
  · subst hg; exact ⟨Provider.customHTTP GANACHE_URL, rfl⟩
  · have hbeq : (u == "ganache") = false := beq_eq_false_iff_ne.mpr hg
    cases hhttp : startswith u "http" with
    | true => exact ⟨Provider.customHTTP u, gwcp_http u hhttp⟩
    | false =>
      cases hws : startswith u "ws" with
      | true => exact ⟨Provider.websocket u, gwcp_ws u hws⟩
      | false =>
        refine ⟨Provider.websocket (get_infura_url WEB3_INFURA_PROJECT_ID u), ?_⟩
        simp [get_web3_connection_provider, hbeq, hhttp, hws, h3]
        exact List.mem_of_elem_eq_true h3

/-- Inversion lemma: the only error `get_web3_connection_provider` returns
is the assertion failure, reached exactly when the input is neither http-
nor ws-prefixed nor a supported network name. -/
theorem gwcp_error_inv (u : String) (e : UtilError)
    (h : get_web3_connection_provider u = Except.error e) :
    e = UtilError.assertionError u ∧ startswith u "http" = false ∧
      startswith u "ws" = false ∧ SUPPORTED_NETWORK_NAMES.contains u = false := by
  cases hsup : SUPPORTED_NETWORK_NAMES.contains u with
  | true =>
    obtain ⟨p, hp⟩ := gwcp_ok_of_contains u hsup
    rw [hp] at h
    exact Except.noConfusion h
  | false =>
    cases hhttp : startswith u "http" with
    | true => rw [gwcp_http u hhttp] at h; exact Except.noConfusion h
    | false =>
      cases hws : startswith u "ws" with
      | true => rw [gwcp_ws u hws] at h; exact Except.noConfusion h
      | false =>
        rw [gwcp_assert u hhttp hws hsup] at h
        exact ⟨(Except.error.inj h).symm, rfl, rfl, rfl⟩

/-- C7: dispatch behaviour of `get_web3_connection_provider`: the literal
input `ganache` yields a `CustomHTTPProvider` on the local ganache url
(the infura branch is never reached for it); http-prefixed inputs yield
`CustomHTTPProvider` on the unchanged url; ws-prefixed inputs yield
`WebsocketProvider` on the unchanged url; the four remote supported
network names yield a `WebsocketProvider` on the corresponding infura url;
every remaining input fails the assertion. -/
theorem c7_provider_dispatch :
    (get_web3_connection_provider "ganache" =
        Except.ok (Provider.customHTTP GANACHE_URL))
  ∧ (∀ u, startswith u "http" = true →
        get_web3_connection_provider u = Except.ok (Provider.customHTTP u))
  ∧ (∀ u, startswith u "ws" = true →
        get_web3_connection_provider u = Except.ok (Provider.websocket u))
  ∧ (∀ u, u ∈ (["rinkeby", "kovan", "mainnet", "ropsten"] : List String) →
        get_web3_connection_provider u =
          Except.ok (Provider.websocket (get_infura_url WEB3_INFURA_PROJECT_ID u)))
  ∧ (∀ u, startswith u "http" = false → startswith u "ws" = false →
        SUPPORTED_NETWORK_NAMES.contains u = false →
        get_web3_connection_provider u = Except.error (UtilError.assertionError u)) := by
  refine ⟨rfl, gwcp_http, gwcp_ws, ?_, gwcp_assert⟩
  intro u hu
  simp only [List.mem_cons, List.not_mem_nil, or_false] at hu
  rcases hu with rfl | rfl | rfl | rfl <;> rfl

/-- C7 witness: the dispatch evaluated on one concrete input per branch. -/
theorem c7_provider_dispatch_witness :
    get_web3_connection_provider "http://localhost:1234" =
        Except.ok (Provider.customHTTP "http://localhost:1234")
  ∧ get_web3_connection_provider "wss://node.example" =
        Except.ok (Provider.websocket "wss://node.example")
  ∧ get_web3_connection_provider "kovan" =
        Except.ok (Provider.websocket (get_infura_url WEB3_INFURA_PROJECT_ID "kovan"))
  ∧ get_web3_connection_provider "bogus" =
        Except.error (UtilError.assertionError "bogus") :=
  ⟨c7_provider_dispatch.2.1 "http://localhost:1234" (by decide),
   c7_provider_dispatch.2.2.1 "wss://node.example" (by decide),
   c7_provider_dispatch.2.2.2.1 "kovan" (by decide),
   c7_provider_dispatch.2.2.2.2 "bogus" (by decide) (by decide) (by decide)⟩

/-- C2 counterexample: `get_web3_connection_provider` raises a
locally-defined error of its own: on the input `polygon` it fails its
`assert` with a locally-built message, an error that does not originate
from any remote call channel. -/
theorem c2_counterexample :
    get_web3_connection_provider "polygon" =
      Except.error (UtilError.assertionError "polygon") := rfl

/-- C2 (amended): the repository adds exactly two local error sites, and no
other: `get_web3_connection_provider` raises its locally-defined assertion
error precisely on inputs that are neither http- nor ws-prefixed nor
supported network names, and the three address getters raise a local
attribute error precisely when `get_contracts_addresses` returns `None`;
every other outcome of these operations is an ordinary result, so all
remaining errors are whatever the remote call channel surfaces. -/
theorem c2_local_error_sites :
    (∀ u e, get_web3_connection_provider u = Except.error e →
        e = UtilError.assertionError u ∧ startswith u "http" = false ∧
          startswith u "ws" = false ∧ SUPPORTED_NETWORK_NAMES.contains u = false)
  ∧ (∀ (net : String) (cfg : Config) (fs : FileSystem) (e : UtilError),
        get_dtfactory_address net cfg fs = Except.error e →
        e = UtilError.attributeError ∧ get_contracts_addresses net cfg fs = none)
  ∧ (∀ (net : String) (cfg : Config) (fs : FileSystem) (e : UtilError),
        get_sfactory_address net cfg fs = Except.error e →
        e = UtilError.attributeError ∧ get_contracts_addresses net cfg fs = none)
  ∧ (∀ (net : String) (cfg : Config) (fs : FileSystem) (e : UtilError),
        get_ocean_token_address net cfg fs = Except.error e →
        e = UtilError.attributeError ∧ get_contracts_addresses net cfg fs = none) := by
  refine ⟨gwcp_error_inv, ?_, ?_, ?_⟩ <;>
    · intro net cfg fs e h
      cases hc : get_contracts_addresses net cfg fs with
      | none =>
        simp only [get_dtfactory_address, get_sfactory_address,
          get_ocean_token_address, hc] at h
        exact ⟨(Except.error.inj h).symm, rfl⟩
      | some book =>
        simp only [get_dtfactory_address, get_sfactory_address,
          get_ocean_token_address, hc] at h
        exact Except.noConfusion h

/-- C2 witness: the characterization applied at the concrete erroring input
`matic` and at a concrete configuration with no address file. -/
theorem c2_local_error_sites_witness :
    (UtilError.assertionError "matic" = UtilError.assertionError "matic" ∧
      startswith "matic" "http" = false ∧ startswith "matic" "ws" = false ∧
      SUPPORTED_NETWORK_NAMES.contains "matic" = false)
  ∧ (UtilError.attributeError = UtilError.attributeError ∧
      get_contracts_addresses "ganache" ⟨none⟩ (fun _ => none) = none) :=
  ⟨c2_local_error_sites.1 "matic" (UtilError.assertionError "matic") rfl,
   c2_local_error_sites.2.1 "ganache" ⟨none⟩ (fun _ => none)
     UtilError.attributeError rfl⟩

/-- C8: `get_contracts_addresses` returns `None` when the address file is
unset (or empty), or does not exist on the filesystem, and otherwise
returns the file entry for the network (`None` when the network is
absent); whenever it returns `None`, all three address getters surface the
attribute error from calling `.get` on `None` instead of returning
`None`. -/
theorem c8_address_lookup_none_propagation :
    (∀ (net : String) (fs : FileSystem),
        get_contracts_addresses net ⟨none⟩ fs = none)
  ∧ (∀ (net : String) (fs : FileSystem),
        get_contracts_addresses net ⟨some ""⟩ fs = none)
  ∧ (∀ (net f : String) (fs : FileSystem), f.isEmpty = false → fs f = none →
        get_contracts_addresses net ⟨some f⟩ fs = none)
  ∧ (∀ (net f : String) (fs : FileSystem)
        (book : List (String × List (String × String))),
        f.isEmpty = false → fs f = some book →
        get_contracts_addresses net ⟨some f⟩ fs = dictGetBook book net)
  ∧ (∀ (net : String) (cfg : Config) (fs : FileSystem),
        get_contracts_addresses net cfg fs = none →
          get_dtfactory_address net cfg fs = Except.error UtilError.attributeError
        ∧ get_sfactory_address net cfg fs = Except.error UtilError.attributeError
        ∧ get_ocean_token_address net cfg fs = Except.error UtilError.attributeError) := by
  refine ⟨fun _ _ => rfl, fun _ _ => rfl, ?_, ?_, ?_⟩
  · intro net f fs h1 h2
    simp [get_contracts_addresses, h1, h2]
  · intro net f fs book h1 h2
    simp [get_contracts_addresses, h1, h2]
  · intro net cfg fs h
    exact ⟨by simp [get_dtfactory_address, h], by simp [get_sfactory_address, h],
      by simp [get_ocean_token_address, h]⟩

/-- C8 witness: a nonexistent configured file gives `None`, and the unset
address file makes every getter fail with the attribute error. -/
theorem c8_address_lookup_none_propagation_witness :
    get_contracts_addresses "mainnet" ⟨some "addresses.json"⟩ (fun _ => none) = none
  ∧ (get_dtfactory_address "mainnet" ⟨none⟩ (fun _ => none) =
        Except.error UtilError.attributeError
    ∧ get_sfactory_address "mainnet" ⟨none⟩ (fun _ => none) =
        Except.error UtilError.attributeError
    ∧ get_ocean_token_address "mainnet" ⟨none⟩ (fun _ => none) =
        Except.error UtilError.attributeError) :=
  ⟨c8_address_lookup_none_propagation.2.2.1 "mainnet" "addresses.json"
      (fun _ => none) rfl rfl,
   c8_address_lookup_none_propagation.2.2.2.2 "mainnet" ⟨none⟩ (fun _ => none) rfl⟩

end OceanPy
